import Mathlib

/-!
Shallow embedding of the resto-manage backend (TypeScript handlers under
`src/server/src/handlers`) and verification of the specified properties.

Modelling conventions:
* The persistence store (`db`) is a record of lists of rows, one per table,
  together with the next value of each `serial` primary-key column.
* Timestamps are naturals (milliseconds since epoch); a handler that reads the
  clock takes the current time `now : Nat` as an explicit argument.
* Nullable columns are `Option`; an input field that is `.optional()` in the
  zod schema is an outer `Option` (`none` = absent/undefined), and a field that
  is `.nullable().optional()` is `Option (Option _)` (outer = presence, inner
  = null).
* Handlers that can `throw` return `Except String _` together with the
  resulting store; `.error` carries the thrown message.
* SHA-256 (`createHash('sha256')...digest('hex')`) is an external primitive;
  functions using it take `sha256hex : String → String` as a parameter.
  JavaScript truthiness quirks (`x || null`, `!salt`) are modelled explicitly.
-/

namespace Resto

/-- `user_role` enum from the drizzle schema. -/
inductive UserRole where
  | SUPER_ADMIN
  | RESTAURANT_OWNER
  | MANAGER
  | STAFF
deriving DecidableEq, Repr

/-- `subscription_tier` enum from the drizzle schema. -/
inductive SubscriptionTier where
  | FREE
  | BASIC
  | PROFESSIONAL
deriving DecidableEq, Repr

/-- `subscription_status` enum from the drizzle schema. -/
inductive SubscriptionStatus where
  | ACTIVE
  | INACTIVE
  | PAST_DUE
  | CANCELED
  | TRIALING
deriving DecidableEq, Repr

/-- Row of `restaurants` (db/schema.ts `restaurantsTable`). -/
structure Restaurant where
  id : Nat
  name : String
  description : Option String
  email : String
  phone : Option String
  address : Option String
  logo_url : Option String
  brand_color : Option String
  is_active : Bool
  created_at : Nat
  updated_at : Nat
deriving DecidableEq, Repr

/-- Row of `users` (db/schema.ts `usersTable`); `restaurant_id` is nullable. -/
structure User where
  id : Nat
  email : String
  password_hash : String
  first_name : String
  last_name : String
  role : UserRole
  restaurant_id : Option Nat
  is_active : Bool
  created_at : Nat
  updated_at : Nat
deriving DecidableEq, Repr

/-- Row of `customers` (db/schema.ts `customersTable`). -/
structure Customer where
  id : Nat
  restaurant_id : Nat
  first_name : String
  last_name : String
  email : Option String
  phone : Option String
  loyalty_points : Int
  total_visits : Int
  last_visit_date : Option Nat
  notes : Option String
  is_active : Bool
  created_at : Nat
  updated_at : Nat
deriving DecidableEq, Repr

/-- Row of `subscriptions` (db/schema.ts `subscriptionsTable`). -/
structure Subscription where
  id : Nat
  restaurant_id : Nat
  tier : SubscriptionTier
  status : SubscriptionStatus
  stripe_subscription_id : Option String
  stripe_customer_id : Option String
  current_period_start : Option Nat
  current_period_end : Option Nat
  created_at : Nat
  updated_at : Nat
deriving DecidableEq, Repr

/-- Row of `permissions` (db/schema.ts `permissionsTable`). -/
structure Permission where
  id : Nat
  name : String
  description : Option String
  resource : String
  action : String
  created_at : Nat
deriving DecidableEq, Repr

/-- Row of `role_permissions` (db/schema.ts `rolePermissionsTable`). -/
structure RolePermission where
  id : Nat
  role : UserRole
  permission_id : Nat
  created_at : Nat
deriving DecidableEq, Repr

/-- The persistence store: one list of rows per table, in insertion order,
plus the next value of each `serial` id column (PostgreSQL serials start
at 1). -/
structure DB where
  restaurants : List Restaurant
  users : List User
  customers : List Customer
  subscriptions : List Subscription
  permissions : List Permission
  rolePermissions : List RolePermission
  nextRestaurantId : Nat
  nextUserId : Nat
  nextCustomerId : Nat
  nextSubscriptionId : Nat
  nextPermissionId : Nat
  nextRolePermissionId : Nat
deriving DecidableEq, Repr

/-- The freshly-created (empty) store. -/
def DB.empty : DB :=
  { restaurants := [], users := [], customers := [], subscriptions := []
    permissions := [], rolePermissions := []
    nextRestaurantId := 1, nextUserId := 1, nextCustomerId := 1
    nextSubscriptionId := 1, nextPermissionId := 1, nextRolePermissionId := 1 }

/-! ### JavaScript value quirks

The handlers use `x || fallback` on optional inputs; `||` takes the fallback
on every falsy value, so the empty string and the number 0 also fall through
to the fallback. -/

/-- `x || null` for a `string | null | undefined` input field
(`.nullable().optional()` in zod): undefined, null and `""` all become null. -/
def jsStrOrNull : Option (Option String) → Option String
  | some (some s) => if s = "" then none else some s
  | some none => none
  | none => none

/-- `x || null` for a `string | undefined` input field (`.optional()`):
undefined and `""` become null. -/
def jsOptStrOrNull : Option String → Option String
  | some s => if s = "" then none else some s
  | none => none

/-- `x || null` for a `number | undefined` input field: undefined and 0
become null. -/
def jsNatOrNull : Option Nat → Option Nat
  | some n => if n = 0 then none else some n
  | none => none

/-- `x || d` for a `number | undefined` input field: undefined and 0 become
the default `d` (used for pagination `limit`/`offset`). -/
def jsNatOr (x : Option Nat) (d : Nat) : Nat :=
  match x with
  | some n => if n = 0 then d else n
  | none => d

/-! ### Credential Verifier (handlers/authenticate_user.ts lines 7-31) -/

/-- `String.prototype.split(sep)` on a single-character separator, at the
character-list level (every occurrence splits; empty components kept). -/
def splitOnChar (sep : Char) : List Char → List (List Char)
  | [] => [[]]
  | c :: cs =>
    match splitOnChar sep cs with
    | [] => if c = sep then [[], []] else [[c]]
    | h :: t => if c = sep then [] :: h :: t else (c :: h) :: t

/-- Value of a hexadecimal digit, `none` for a non-hex character. -/
def hexVal (c : Char) : Option Nat :=
  if c ≥ Char.ofNat 48 ∧ c ≤ Char.ofNat 57 then some (c.toNat - 48)
  else if c ≥ Char.ofNat 97 ∧ c ≤ Char.ofNat 102 then some (c.toNat - 97 + 10)
  else if c ≥ Char.ofNat 65 ∧ c ≤ Char.ofNat 70 then some (c.toNat - 65 + 10)
  else none

/-- `Buffer.from(s, 'hex')`: decode hex pairs from the start, truncating at
the first invalid pair or odd leftover character. Bytes as naturals. -/
def hexDecode : List Char → List Nat
  | c1 :: c2 :: rest =>
    match hexVal c1, hexVal c2 with
    | some h, some l => (16 * h + l) :: hexDecode rest
    | _, _ => []
  | _ => []

/-- `hashPassword` (authenticate_user.ts lines 8-10):
`createHash('sha256').update(password + salt).digest('hex')`. -/
def hashPassword (sha256hex : String → String) (password salt : String) : String :=
  sha256hex (password ++ salt)

/-- `verifyPassword` (authenticate_user.ts lines 13-31). Splits the stored
digest on `:`, taking the first two components as `[salt, hash]`; returns
false when either is missing or empty; otherwise recomputes the digest and
compares with `timingSafeEqual`, whose length-mismatch exception is caught
and turned into false. -/
def verifyPassword (sha256hex : String → String) (password storedHash : String) : Bool :=
  match splitOnChar (Char.ofNat 58) storedHash.data with
  | [] => false
  | [_] => false
  | salt :: hash :: _ =>
    if salt.isEmpty then false
    else if hash.isEmpty then false
    else
      let computedHash := hashPassword sha256hex password (String.mk salt)
      let bufHash := hexDecode hash
      let bufComputed := hexDecode computedHash.data
      if bufHash.length = bufComputed.length then decide (bufHash = bufComputed)
      else false

/-- `LoginInput` (schema.ts `loginInputSchema`). -/
structure LoginInput where
  email : String
  password : String
deriving DecidableEq, Repr

/-- `authenticateUser` (authenticate_user.ts lines 33-76): first user with a
matching email; null when absent, inactive, or the password does not verify;
on success the full user record. -/
def authenticateUser (sha256hex : String → String) (input : LoginInput) (db : DB) : Option User :=
  match db.users.find? (fun u => u.email = input.email) with
  | none => none
  | some user =>
    if ¬ user.is_active then none
    else if ¬ verifyPassword sha256hex input.password user.password_hash then none
    else some user

/-- `CreateUserInput` (schema.ts `createUserInputSchema`). -/
structure CreateUserInput where
  email : String
  password : String
  first_name : String
  last_name : String
  role : Option UserRole
  restaurant_id : Option Nat
deriving DecidableEq, Repr

/-- `createUser` (create_restaurant.ts lines 43-70): hashes the password as
`sha256hex(password + salt) ++ ":" ++ salt` (digest first, then the salt —
the salt is `randomBytes(16).toString('hex')`, passed here as an argument)
and inserts the user row. `input.role || 'STAFF'` never falls back on a
present role (enum strings are truthy); `input.restaurant_id || null`
collapses 0 to null. -/
def createUser (sha256hex : String → String) (now : Nat) (salt : String)
    (input : CreateUserInput) (db : DB) : User × DB :=
  let password_hash := hashPassword sha256hex input.password salt ++ ":" ++ salt
  let user : User :=
    { id := db.nextUserId, email := input.email, password_hash := password_hash
      first_name := input.first_name, last_name := input.last_name
      role := input.role.getD UserRole.STAFF
      restaurant_id := jsNatOrNull input.restaurant_id
      is_active := true, created_at := now, updated_at := now }
  (user, { db with users := db.users ++ [user], nextUserId := db.nextUserId + 1 })

/-! ### Restaurant and Subscription creation -/

/-- `CreateRestaurantInput` (schema.ts `createRestaurantInputSchema`). -/
structure CreateRestaurantInput where
  name : String
  description : Option (Option String)
  email : String
  phone : Option (Option String)
  address : Option (Option String)
  logo_url : Option (Option String)
  brand_color : Option (Option String)
deriving DecidableEq, Repr

/-- `createRestaurant` (create_restaurant.ts lines 5-37): inserts the
restaurant with `is_active: true` and the optional fields passed through
`x || null`, then inserts a default subscription with `tier: 'FREE'`,
`status: 'ACTIVE'` and every other column left to its schema default
(stripe references and billing period null, timestamps now). -/
def createRestaurant (now : Nat) (input : CreateRestaurantInput) (db : DB) : Restaurant × DB :=
  let restaurant : Restaurant :=
    { id := db.nextRestaurantId, name := input.name
      description := jsStrOrNull input.description
      email := input.email
      phone := jsStrOrNull input.phone
      address := jsStrOrNull input.address
      logo_url := jsStrOrNull input.logo_url
      brand_color := jsStrOrNull input.brand_color
      is_active := true, created_at := now, updated_at := now }
  let subscription : Subscription :=
    { id := db.nextSubscriptionId, restaurant_id := restaurant.id
      tier := SubscriptionTier.FREE, status := SubscriptionStatus.ACTIVE
      stripe_subscription_id := none, stripe_customer_id := none
      current_period_start := none, current_period_end := none
      created_at := now, updated_at := now }
  (restaurant,
    { db with
      restaurants := db.restaurants ++ [restaurant]
      nextRestaurantId := db.nextRestaurantId + 1
      subscriptions := db.subscriptions ++ [subscription]
      nextSubscriptionId := db.nextSubscriptionId + 1 })

/-- `CreateSubscriptionInput` (schema.ts `createSubscriptionInputSchema`). -/
structure CreateSubscriptionInput where
  restaurant_id : Nat
  tier : SubscriptionTier
  stripe_customer_id : Option String
deriving DecidableEq, Repr

/-- Thirty days in milliseconds: `30 * 24 * 60 * 60 * 1000`. -/
def thirtyDaysMs : Nat := 30 * 24 * 60 * 60 * 1000

/-- `createSubscription` (create_customer.ts lines 28-69, the implemented
handler): throws `Restaurant not found` when the referenced restaurant does
not exist (before any insert, so the store is unchanged); for a paid tier
sets `current_period_start = now` and `current_period_end = now + 30 days`,
for FREE leaves both null. -/
def createSubscription (now : Nat) (input : CreateSubscriptionInput) (db : DB) :
    Except String Subscription × DB :=
  match db.restaurants.filter (fun r => r.id = input.restaurant_id) with
  | [] => (Except.error "Restaurant not found", db)
  | _ :: _ =>
    let currentPeriodStart := if input.tier ≠ SubscriptionTier.FREE then some now else none
    let currentPeriodEnd :=
      if input.tier ≠ SubscriptionTier.FREE then some (now + thirtyDaysMs) else none
    let subscription : Subscription :=
      { id := db.nextSubscriptionId, restaurant_id := input.restaurant_id
        tier := input.tier, status := SubscriptionStatus.ACTIVE
        stripe_subscription_id := none
        stripe_customer_id := jsOptStrOrNull input.stripe_customer_id
        current_period_start := currentPeriodStart
        current_period_end := currentPeriodEnd
        created_at := now, updated_at := now }
    (Except.ok subscription,
      { db with
        subscriptions := db.subscriptions ++ [subscription]
        nextSubscriptionId := db.nextSubscriptionId + 1 })

/-! ### Customer read and update (get_customers.ts, update_customer.ts) -/

/-- `getCustomer` (get_customers.ts lines 34-61): select filtered by
`id = customerId AND restaurant_id = restaurantId`; null when no row
matches, otherwise the first matching row (the handler only re-wraps the
date columns, which is the identity here). -/
def getCustomer (customerId restaurantId : Nat) (db : DB) : Option Customer :=
  match db.customers.filter (fun c => c.id = customerId ∧ c.restaurant_id = restaurantId) with
  | [] => none
  | c :: _ => some c

/-- `UpdateCustomerInput` (schema.ts `updateCustomerInputSchema`). -/
structure UpdateCustomerInput where
  id : Nat
  first_name : Option String
  last_name : Option String
  email : Option (Option String)
  phone : Option (Option String)
  loyalty_points : Option Int
  notes : Option (Option String)
  is_active : Option Bool
deriving DecidableEq, Repr

/-- The `updateData` object of update_customer.ts lines 22-47 applied to a
row: a column is set exactly when the input field is not undefined (a
present null is written as null), and `updated_at` is always set to now. -/
def applyCustomerUpdate (input : UpdateCustomerInput) (now : Nat) (c : Customer) : Customer :=
  { c with
    first_name := input.first_name.getD c.first_name
    last_name := input.last_name.getD c.last_name
    email := match input.email with | some v => v | none => c.email
    phone := match input.phone with | some v => v | none => c.phone
    loyalty_points := input.loyalty_points.getD c.loyalty_points
    notes := match input.notes with | some v => v | none => c.notes
    is_active := input.is_active.getD c.is_active
    updated_at := now }

/-- `updateCustomer` (update_customer.ts lines 6-66): select by
`id AND restaurant_id` (tenant isolation), throw
`Customer not found or does not belong to this restaurant` when empty;
otherwise update all rows matching the same condition and return the first
updated row (with the dead `Failed to update customer` re-check kept). -/
def updateCustomer (now : Nat) (input : UpdateCustomerInput) (restaurantId : Nat) (db : DB) :
    Except String Customer × DB :=
  match db.customers.filter (fun c => c.id = input.id ∧ c.restaurant_id = restaurantId) with
  | [] => (Except.error "Customer not found or does not belong to this restaurant", db)
  | m :: rest =>
    let updatedTable := db.customers.map
      (fun c => if c.id = input.id ∧ c.restaurant_id = restaurantId
                then applyCustomerUpdate input now c else c)
    match (m :: rest).map (applyCustomerUpdate input now) with
    | [] => (Except.error "Failed to update customer", { db with customers := updatedTable })
    | r :: _ => (Except.ok r, { db with customers := updatedTable })

/-! ### Restaurant and User update (update_restaurant.ts, update_user.ts) -/

/-- `UpdateRestaurantInput` (schema.ts `updateRestaurantInputSchema`). -/
structure UpdateRestaurantInput where
  id : Nat
  name : Option String
  description : Option (Option String)
  email : Option String
  phone : Option (Option String)
  address : Option (Option String)
  logo_url : Option (Option String)
  brand_color : Option (Option String)
  is_active : Option Bool
deriving DecidableEq, Repr

/-- The `updateData` object of update_restaurant.ts lines 44-70 applied to a
row: provided fields overwrite (a present null is written as null), absent
fields are untouched, `updated_at` is always set to now. -/
def applyRestaurantUpdate (input : UpdateRestaurantInput) (now : Nat) (r : Restaurant) : Restaurant :=
  { r with
    name := input.name.getD r.name
    description := match input.description with | some v => v | none => r.description
    email := input.email.getD r.email
    phone := match input.phone with | some v => v | none => r.phone
    address := match input.address with | some v => v | none => r.address
    logo_url := match input.logo_url with | some v => v | none => r.logo_url
    brand_color := match input.brand_color with | some v => v | none => r.brand_color
    is_active := input.is_active.getD r.is_active
    updated_at := now }

/-- `updateRestaurant` (update_restaurant.ts lines 26-80, the implemented
handler): select by id, throw `Restaurant with ID ... not found` when
missing, otherwise update rows matching the id and return the first. -/
def updateRestaurant (now : Nat) (input : UpdateRestaurantInput) (db : DB) :
    Except String Restaurant × DB :=
  match db.restaurants.filter (fun r => r.id = input.id) with
  | [] => (Except.error ("Restaurant with ID " ++ toString input.id ++ " not found"), db)
  | m :: _ =>
    let updatedTable := db.restaurants.map
      (fun r => if r.id = input.id then applyRestaurantUpdate input now r else r)
    (Except.ok (applyRestaurantUpdate input now m), { db with restaurants := updatedTable })

/-- `UpdateUserInput` (schema.ts `updateUserInputSchema`); `restaurant_id`
is nullable and optional. -/
structure UpdateUserInput where
  id : Nat
  email : Option String
  first_name : Option String
  last_name : Option String
  role : Option UserRole
  restaurant_id : Option (Option Nat)
  is_active : Option Bool
deriving DecidableEq, Repr

/-- The `updateFields` object of update_restaurant.ts lines 88-97 applied to
a row. -/
def applyUserUpdate (input : UpdateUserInput) (now : Nat) (u : User) : User :=
  { u with
    email := input.email.getD u.email
    first_name := input.first_name.getD u.first_name
    last_name := input.last_name.getD u.last_name
    role := input.role.getD u.role
    restaurant_id := match input.restaurant_id with | some v => v | none => u.restaurant_id
    is_active := input.is_active.getD u.is_active
    updated_at := now }

/-- `updateUser` (update_restaurant.ts lines 85-115, the implemented
handler): updates every user row matching `id = input.id` — the WHERE clause
has no `restaurant_id` filter and the handler receives no caller tenant
context — then throws `User with id ... not found` only when nothing
matched. -/
def updateUser (now : Nat) (input : UpdateUserInput) (db : DB) : Except String User × DB :=
  let updatedTable := db.users.map
    (fun u => if u.id = input.id then applyUserUpdate input now u else u)
  match db.users.filter (fun u => u.id = input.id) with
  | [] => (Except.error ("User with id " ++ toString input.id ++ " not found"),
           { db with users := updatedTable })
  | m :: _ => (Except.ok (applyUserUpdate input now m), { db with users := updatedTable })

/-! ### Staff reads (get_staff.ts, the implemented handlers) -/

/-- `GetStaffByRestaurantInput` (schema.ts `getStaffByRestaurantInputSchema`). -/
structure GetStaffByRestaurantInput where
  restaurant_id : Nat
  limit : Option Nat
  offset : Option Nat
deriving DecidableEq, Repr

/-- `getStaffByRestaurant` (get_staff.ts lines 20-49): filter by
`restaurant_id = input.restaurant_id AND role <> 'SUPER_ADMIN'`, then apply
`LIMIT (input.limit || 50) OFFSET (input.offset || 0)`. -/
def getStaffByRestaurant (input : GetStaffByRestaurantInput) (db : DB) : List User :=
  let limit := jsNatOr input.limit 50
  let offset := jsNatOr input.offset 0
  (((db.users.filter
      (fun u => u.restaurant_id = some input.restaurant_id ∧ u.role ≠ UserRole.SUPER_ADMIN)).drop
      offset).take limit)

/-- `getStaffMember` (get_staff.ts lines 51-72): single user filtered by
`id AND restaurant_id AND role <> 'SUPER_ADMIN'`, `LIMIT 1`; null when no
row matches. -/
def getStaffMember (userId restaurantId : Nat) (db : DB) : Option User :=
  match (db.users.filter
      (fun u => u.id = userId ∧ u.restaurant_id = some restaurantId ∧
                u.role ≠ UserRole.SUPER_ADMIN)).take 1 with
  | [] => none
  | u :: _ => some u

/-! ### Permission catalog (seed_permissions.ts, get_permissions.ts) -/

/-- One entry of the `DEFAULT_PERMISSIONS` array (seed_permissions.ts
lines 7-28): the data to insert, without the serial id. -/
structure SeedPermission where
  name : String
  description : String
  resource : String
  action : String
deriving DecidableEq, Repr

/-- `DEFAULT_PERMISSIONS` (seed_permissions.ts lines 7-28), in array order. -/
def DEFAULT_PERMISSIONS : List SeedPermission :=
  [ { name := "customers:read", description := "View customer information",
      resource := "customers", action := "read" },
    { name := "customers:write", description := "Create and update customer information",
      resource := "customers", action := "write" },
    { name := "customers:delete", description := "Delete customer records",
      resource := "customers", action := "delete" },
    { name := "staff:read", description := "View staff information",
      resource := "staff", action := "read" },
    { name := "staff:write", description := "Create and update staff information",
      resource := "staff", action := "write" },
    { name := "staff:delete", description := "Delete staff records",
      resource := "staff", action := "delete" },
    { name := "settings:read", description := "View restaurant settings",
      resource := "settings", action := "read" },
    { name := "settings:write", description := "Modify restaurant settings",
      resource := "settings", action := "write" },
    { name := "billing:read", description := "View billing information",
      resource := "billing", action := "read" },
    { name := "billing:write", description := "Manage billing and subscriptions",
      resource := "billing", action := "write" },
    { name := "reports:read", description := "View reports and analytics",
      resource := "reports", action := "read" } ]

/-- `ROLE_PERMISSION_MAPPINGS` (seed_permissions.ts lines 31-55), in the
insertion order `Object.entries` iterates. -/
def ROLE_PERMISSION_MAPPINGS : List (UserRole × List String) :=
  [ (UserRole.SUPER_ADMIN,
      ["customers:read", "customers:write", "customers:delete",
       "staff:read", "staff:write", "staff:delete",
       "settings:read", "settings:write",
       "billing:read", "billing:write",
       "reports:read"]),
    (UserRole.RESTAURANT_OWNER,
      ["customers:read", "customers:write", "customers:delete",
       "staff:read", "staff:write", "staff:delete",
       "settings:read", "settings:write",
       "billing:read", "billing:write",
       "reports:read"]),
    (UserRole.MANAGER,
      ["customers:read", "customers:write", "customers:delete",
       "staff:read", "staff:write",
       "reports:read"]),
    (UserRole.STAFF,
      ["customers:read", "reports:read"]) ]

/-- The (role, permission-name) pairs the nested loop of
`assignDefaultRolePermissions` iterates, in iteration order. -/
def rolePermissionPairs : List (UserRole × String) :=
  ROLE_PERMISSION_MAPPINGS.flatMap (fun entry => entry.2.map (fun nm => (entry.1, nm)))

/-- The loop body of `seedDefaultPermissions` (seed_permissions.ts
lines 61-85) over the permissions table and its serial counter: for each
default, select by name; insert only when absent; collect the existing or
newly inserted row. Returns (collected rows, table, next id). -/
def seedPermissionsCore (now : Nat) :
    List SeedPermission → List Permission → Nat → List Permission × List Permission × Nat
  | [], ps, n => ([], ps, n)
  | d :: ds, ps, n =>
    match ps.find? (fun p => p.name = d.name) with
    | some p =>
      let (rs, ps2, n2) := seedPermissionsCore now ds ps n
      (p :: rs, ps2, n2)
    | none =>
      let row : Permission :=
        { id := n, name := d.name, description := some d.description
          resource := d.resource, action := d.action, created_at := now }
      let (rs, ps2, n2) := seedPermissionsCore now ds (ps ++ [row]) (n + 1)
      (row :: rs, ps2, n2)

/-- `seedDefaultPermissions` (seed_permissions.ts lines 57-91). -/
def seedDefaultPermissions (now : Nat) (db : DB) : List Permission × DB :=
  ((seedPermissionsCore now DEFAULT_PERMISSIONS db.permissions db.nextPermissionId).1,
   { db with
     permissions := (seedPermissionsCore now DEFAULT_PERMISSIONS db.permissions db.nextPermissionId).2.1
     nextPermissionId :=
       (seedPermissionsCore now DEFAULT_PERMISSIONS db.permissions db.nextPermissionId).2.2 })

/-- Read of the `permissionMap` built by
`allPermissions.forEach(p => permissionMap.set(p.name, p.id))`
(seed_permissions.ts lines 98-106): the id of the last row with the given
name, `none` when the name is absent. -/
def permissionMapGet (ps : List Permission) (nm : String) : Option Nat :=
  ps.foldl (fun acc p => if p.name = nm then some p.id else acc) none

/-- The nested loop of `assignDefaultRolePermissions` (seed_permissions.ts
lines 110-148) over the role_permissions table and its serial counter: for
each (role, name) pair, look the name up in the permission map —
`if (!permissionId) continue` skips both a missing name and (because 0 is
falsy) id 0 — then select the (role, permission_id) edge and insert only
when absent, collecting the existing or new edge. -/
def assignCore (now : Nat) (perms : List Permission) :
    List (UserRole × String) → List RolePermission → Nat →
    List RolePermission × List RolePermission × Nat
  | [], es, n => ([], es, n)
  | pair :: rest, es, n =>
    match permissionMapGet perms pair.2 with
    | none => assignCore now perms rest es n
    | some pid =>
      if pid = 0 then assignCore now perms rest es n
      else
        match es.find? (fun e => e.role = pair.1 ∧ e.permission_id = pid) with
        | some e =>
          let (rs, es2, n2) := assignCore now perms rest es n
          (e :: rs, es2, n2)
        | none =>
          let edge : RolePermission :=
            { id := n, role := pair.1, permission_id := pid, created_at := now }
          let (rs, es2, n2) := assignCore now perms rest (es ++ [edge]) (n + 1)
          (edge :: rs, es2, n2)

/-- `assignDefaultRolePermissions` (seed_permissions.ts lines 93-153): first
ensures the catalog is seeded, then walks the fixed mapping. -/
def assignDefaultRolePermissions (now : Nat) (db : DB) : List RolePermission × DB :=
  let db1 := (seedDefaultPermissions now db).2
  ((assignCore now db1.permissions rolePermissionPairs db1.rolePermissions
      db1.nextRolePermissionId).1,
   { db1 with
     rolePermissions :=
       (assignCore now db1.permissions rolePermissionPairs db1.rolePermissions
         db1.nextRolePermissionId).2.1
     nextRolePermissionId :=
       (assignCore now db1.permissions rolePermissionPairs db1.rolePermissions
         db1.nextRolePermissionId).2.2 })

/-- `getPermissionsByRole` (get_permissions.ts lines 6-21): inner join of
role_permissions with permissions on `permission_id = permissions.id`,
filtered by role, projected to the permission side. -/
def getPermissionsByRole (role : UserRole) (db : DB) : List Permission :=
  (db.rolePermissions.filter (fun rp => rp.role = role)).flatMap
    (fun rp => db.permissions.filter (fun p => p.id = rp.permission_id))

/-! ## Theorems -/

/-- C8: every `createRestaurant` call stores the restaurant with
`is_active = true` and, in the same operation, creates exactly one
subscription for that restaurant with tier FREE, status ACTIVE and null
billing-period fields. -/
theorem C8_create_restaurant_default_subscription
    (now : Nat) (input : CreateRestaurantInput) (db : DB) :
    (createRestaurant now input db).1.is_active = true ∧
    (createRestaurant now input db).2.restaurants
      = db.restaurants ++ [(createRestaurant now input db).1] ∧
    ∃ s : Subscription,
      (createRestaurant now input db).2.subscriptions = db.subscriptions ++ [s] ∧
      s.restaurant_id = (createRestaurant now input db).1.id ∧
      s.tier = SubscriptionTier.FREE ∧
      s.status = SubscriptionStatus.ACTIVE ∧
      s.current_period_start = none ∧
      s.current_period_end = none := by
  exact ⟨rfl, rfl,
    ⟨{ id := db.nextSubscriptionId, restaurant_id := db.nextRestaurantId
       tier := SubscriptionTier.FREE, status := SubscriptionStatus.ACTIVE
       stripe_subscription_id := none, stripe_customer_id := none
       current_period_start := none, current_period_end := none
       created_at := now, updated_at := now },
     rfl, rfl, rfl, rfl, rfl, rfl⟩⟩

/-- C7: `createSubscription` fails hard (and leaves the store unchanged)
when the referenced restaurant does not exist; for a paid tier the billing
window is exactly 30 days (`current_period_start = now`,
`current_period_end = now + 30 days`); for FREE both fields are null. -/
theorem C7_create_subscription_billing_window
    (now : Nat) (input : CreateSubscriptionInput) (db : DB) :
    (db.restaurants.filter (fun r => r.id = input.restaurant_id) = [] →
      createSubscription now input db = (Except.error "Restaurant not found", db)) ∧
    (db.restaurants.filter (fun r => r.id = input.restaurant_id) ≠ [] →
      ∃ s : Subscription,
        (createSubscription now input db).1 = Except.ok s ∧
        (input.tier ≠ SubscriptionTier.FREE →
          s.current_period_start = some now ∧
          s.current_period_end = some (now + thirtyDaysMs) ∧
          s.current_period_end.getD 0 - s.current_period_start.getD 0 = thirtyDaysMs) ∧
        (input.tier = SubscriptionTier.FREE →
          s.current_period_start = none ∧ s.current_period_end = none)) := by
  constructor
  · intro h
    simp only [createSubscription, h]
  · intro h
    obtain ⟨r, t, hrt⟩ := List.exists_cons_of_ne_nil h
    refine ⟨{ id := db.nextSubscriptionId, restaurant_id := input.restaurant_id
              tier := input.tier, status := SubscriptionStatus.ACTIVE
              stripe_subscription_id := none
              stripe_customer_id := jsOptStrOrNull input.stripe_customer_id
              current_period_start :=
                if input.tier ≠ SubscriptionTier.FREE then some now else none
              current_period_end :=
                if input.tier ≠ SubscriptionTier.FREE then some (now + thirtyDaysMs) else none
              created_at := now, updated_at := now }, ?_, ?_, ?_⟩
    · simp only [createSubscription, hrt]
    · intro hp
      simp [if_pos hp]
    · intro hf
      have hnf : ¬ input.tier ≠ SubscriptionTier.FREE := by simp [hf]
      simp [if_neg hnf]

/-- Witness for C7 at concrete inputs: a store with no restaurant (the
error branch), and a one-restaurant store with a BASIC subscription (the
30-day window branch). -/
theorem C7_create_subscription_billing_window_witness :
    (createSubscription 1000
        { restaurant_id := 1, tier := SubscriptionTier.BASIC, stripe_customer_id := none }
        DB.empty
      = (Except.error "Restaurant not found", DB.empty)) ∧
    ∃ s : Subscription,
      (createSubscription 1000
          { restaurant_id := 1, tier := SubscriptionTier.BASIC, stripe_customer_id := none }
          (createRestaurant 0
            { name := "T", description := none, email := "t@t.com", phone := none
              address := none, logo_url := none, brand_color := none } DB.empty).2).1
        = Except.ok s ∧
      s.current_period_start = some 1000 ∧
      s.current_period_end = some (1000 + thirtyDaysMs) := by
  constructor
  · exact (C7_create_subscription_billing_window 1000
      { restaurant_id := 1, tier := SubscriptionTier.BASIC, stripe_customer_id := none }
      DB.empty).1 (by decide)
  · obtain ⟨s, h1, h2, h3⟩ := (C7_create_subscription_billing_window 1000
      { restaurant_id := 1, tier := SubscriptionTier.BASIC, stripe_customer_id := none }
      (createRestaurant 0
        { name := "T", description := none, email := "t@t.com", phone := none
          address := none, logo_url := none, brand_color := none } DB.empty).2).2
      (by decide)
    obtain ⟨hs, he, _⟩ := h2 (by decide)
    exact ⟨s, h1, hs, he⟩

/-- C10: every user returned by `getStaffByRestaurant` or `getStaffMember`
has the queried `restaurant_id` and a role other than SUPER_ADMIN, for every
store and every input. -/
theorem C10_staff_reads_tenant_scoped :
    (∀ (db : DB) (input : GetStaffByRestaurantInput) (u : User),
      u ∈ getStaffByRestaurant input db →
        u.restaurant_id = some input.restaurant_id ∧ u.role ≠ UserRole.SUPER_ADMIN) ∧
    (∀ (db : DB) (userId restaurantId : Nat) (u : User),
      getStaffMember userId restaurantId db = some u →
        u.restaurant_id = some restaurantId ∧ u.role ≠ UserRole.SUPER_ADMIN) := by
  constructor
  · intro db input u hu
    have h1 : u ∈ (db.users.filter
        (fun u => u.restaurant_id = some input.restaurant_id ∧
                  u.role ≠ UserRole.SUPER_ADMIN)) :=
      List.mem_of_mem_drop (List.mem_of_mem_take hu)
    have h2 := (List.mem_filter.1 h1).2
    simpa using h2
  · intro db userId restaurantId u hu
    unfold getStaffMember at hu
    rcases htake : (db.users.filter
        (fun u => u.id = userId ∧ u.restaurant_id = some restaurantId ∧
                  u.role ≠ UserRole.SUPER_ADMIN)).take 1 with _ | ⟨v, t⟩
    · rw [htake] at hu
      exact absurd hu (by simp)
    · rw [htake] at hu
      have hv : v = u := by simpa using hu
      have h1 : v ∈ (db.users.filter
          (fun u => u.id = userId ∧ u.restaurant_id = some restaurantId ∧
                    u.role ≠ UserRole.SUPER_ADMIN)) :=
        List.mem_of_mem_take (htake ▸ List.mem_cons_self v t)
      have h2 := (List.mem_filter.1 h1).2
      rw [hv] at h2
      have h3 : u.id = userId ∧ u.restaurant_id = some restaurantId ∧
          u.role ≠ UserRole.SUPER_ADMIN := by simpa using h2
      exact ⟨h3.2.1, h3.2.2⟩

/-- Witness for C10: a concrete store where both reads return a staff
member of the queried restaurant. -/
theorem C10_staff_reads_tenant_scoped_witness :
    ({ id := 1, email := "s@x.y", password_hash := "h", first_name := "S", last_name := "T"
       role := UserRole.STAFF, restaurant_id := some 4, is_active := true
       created_at := 0, updated_at := 0 } : User).restaurant_id = some 4 ∧
    ({ id := 1, email := "s@x.y", password_hash := "h", first_name := "S", last_name := "T"
       role := UserRole.STAFF, restaurant_id := some 4, is_active := true
       created_at := 0, updated_at := 0 } : User).role ≠ UserRole.SUPER_ADMIN := by
  exact C10_staff_reads_tenant_scoped.2
    { DB.empty with
      users := [{ id := 1, email := "s@x.y", password_hash := "h", first_name := "S"
                  last_name := "T", role := UserRole.STAFF, restaurant_id := some 4
                  is_active := true, created_at := 0, updated_at := 0 }]
      nextUserId := 2 }
    1 4
    { id := 1, email := "s@x.y", password_hash := "h", first_name := "S", last_name := "T"
      role := UserRole.STAFF, restaurant_id := some 4, is_active := true
      created_at := 0, updated_at := 0 }
    (by decide)

/-- C4 as amended: `authenticateUser` returns null — and, being a total
function into `Option`, never throws — when the email matches no user, when
the first matching user is inactive, or when the password does not verify;
and a stored digest that contains no separator (splits into a single
component) makes `verifyPassword` return false. Those null-returning
sub-causes produce the same outward signal, `none`. The original claim's
wider malformed case (any digest not splitting into exactly two components)
is false of the code: `const [salt, hash] = storedHash.split(':')` keeps the
first two components of a three-or-more-component digest and can verify it
successfully — see the counterexample. -/
theorem C4_authentication_failure_modes :
    (∀ (sha256hex : String → String) (input : LoginInput) (db : DB),
      db.users.find? (fun u => u.email = input.email) = none →
        authenticateUser sha256hex input db = none) ∧
    (∀ (sha256hex : String → String) (input : LoginInput) (db : DB) (u : User),
      db.users.find? (fun u => u.email = input.email) = some u →
        u.is_active = false →
        authenticateUser sha256hex input db = none) ∧
    (∀ (sha256hex : String → String) (input : LoginInput) (db : DB) (u : User),
      db.users.find? (fun u => u.email = input.email) = some u →
        verifyPassword sha256hex input.password u.password_hash = false →
        authenticateUser sha256hex input db = none) ∧
    (∀ (sha256hex : String → String) (password storedHash : String),
      (splitOnChar (Char.ofNat 58) storedHash.data).length = 1 →
        verifyPassword sha256hex password storedHash = false) := by
  refine ⟨?_, ?_, ?_, ?_⟩
  · intro hf input db h
    simp [authenticateUser, h]
  · intro hf input db u h hact
    simp [authenticateUser, h, hact]
  · intro hf input db u h hverify
    simp [authenticateUser, h, hverify]
  · intro hf password storedHash h
    rcases hs : splitOnChar (Char.ofNat 58) storedHash.data with _ | ⟨x, t⟩
    · simp [verifyPassword, hs]
    · rw [hs] at h
      have ht : t = [] := by
        simpa using h
      subst ht
      simp [verifyPassword, hs]

/-- Witness for C4: the three authentication failure modes and the
malformed-digest case at concrete inputs. -/
theorem C4_authentication_failure_modes_witness :
    authenticateUser (fun _ => "aa") { email := "a@b.c", password := "p" } DB.empty = none ∧
    authenticateUser (fun _ => "aa") { email := "i@b.c", password := "p" }
      { DB.empty with
        users := [{ id := 1, email := "i@b.c", password_hash := "00:aa", first_name := "I"
                    last_name := "N", role := UserRole.STAFF, restaurant_id := some 1
                    is_active := false, created_at := 0, updated_at := 0 }] } = none ∧
    authenticateUser (fun _ => "aa") { email := "w@b.c", password := "p" }
      { DB.empty with
        users := [{ id := 1, email := "w@b.c", password_hash := "00:bb", first_name := "W"
                    last_name := "N", role := UserRole.STAFF, restaurant_id := some 1
                    is_active := true, created_at := 0, updated_at := 0 }] } = none ∧
    verifyPassword (fun _ => "aa") "p" "nocolonatall" = false := by
  refine ⟨?_, ?_, ?_, ?_⟩
  · exact C4_authentication_failure_modes.1 (fun _ => "aa")
      { email := "a@b.c", password := "p" } DB.empty (by decide)
  · exact C4_authentication_failure_modes.2.1 (fun _ => "aa")
      { email := "i@b.c", password := "p" } _
      { id := 1, email := "i@b.c", password_hash := "00:aa", first_name := "I"
        last_name := "N", role := UserRole.STAFF, restaurant_id := some 1
        is_active := false, created_at := 0, updated_at := 0 }
      (by decide) (by decide)
  · exact C4_authentication_failure_modes.2.2.1 (fun _ => "aa")
      { email := "w@b.c", password := "p" } _
      { id := 1, email := "w@b.c", password_hash := "00:bb", first_name := "W"
        last_name := "N", role := UserRole.STAFF, restaurant_id := some 1
        is_active := true, created_at := 0, updated_at := 0 }
      (by decide) (by decide)
  · exact C4_authentication_failure_modes.2.2.2 (fun _ => "aa") "p" "nocolonatall" (by decide)

/-- A stored digest with three components: a salt, the digest that the
stand-in primitive produces for `"p" ++ "00"`, and trailing junk. -/
def threePartDigest : String :=
  "00:" ++ String.mk (List.replicate 64 (Char.ofNat 97)) ++ ":xx"

/-- An active user whose stored digest is the three-component
`threePartDigest`. -/
def threePartUser : User :=
  { id := 1, email := "m@b.c", password_hash := threePartDigest, first_name := "M"
    last_name := "B", role := UserRole.STAFF, restaurant_id := some 1, is_active := true
    created_at := 0, updated_at := 0 }

/-- Counterexample to C4 as originally stated: this stored digest does not
split into two components (it splits into three), yet `verifyPassword`
accepts it — the code keeps the first two components, here a salt and the
matching digest — and `authenticateUser` returns the user rather than
null. -/
theorem C4_three_component_digest_authenticates :
    (splitOnChar (Char.ofNat 58) threePartDigest.data).length = 3 ∧
    verifyPassword (fun _ => String.mk (List.replicate 64 (Char.ofNat 97)))
      "p" threePartDigest = true ∧
    authenticateUser (fun _ => String.mk (List.replicate 64 (Char.ofNat 97)))
      { email := "m@b.c", password := "p" }
      { DB.empty with users := [threePartUser], nextUserId := 2 }
      = some threePartUser ∧
    authenticateUser (fun _ => String.mk (List.replicate 64 (Char.ofNat 97)))
      { email := "m@b.c", password := "p" }
      { DB.empty with users := [threePartUser], nextUserId := 2 }
      ≠ none := by
  have hsome : authenticateUser (fun _ => String.mk (List.replicate 64 (Char.ofNat 97)))
      { email := "m@b.c", password := "p" }
      { DB.empty with users := [threePartUser], nextUserId := 2 }
      = some threePartUser := rfl
  exact ⟨by decide, by decide, hsome, fun h => by rw [hsome] at h; exact Option.noConfusion h⟩

/-- C1: tenant isolation for customers. For a customer row of restaurant A
(and id unique in the table), `getCustomer` under a different restaurant B
returns null and `updateCustomer` under B fails with the not-found error
leaving the store unchanged, while the same id under A is returned by
`getCustomer` and updated successfully by `updateCustomer`. -/
theorem C1_customer_tenant_isolation
    (db : DB) (c : Customer) (A B : Nat) (input : UpdateCustomerInput) (now : Nat)
    (hmem : c ∈ db.customers)
    (huniq : ∀ x ∈ db.customers, x.id = c.id → x = c)
    (hA : c.restaurant_id = A)
    (hB : B ≠ A)
    (hid : input.id = c.id) :
    getCustomer c.id B db = none ∧
    updateCustomer now input B db =
      (Except.error "Customer not found or does not belong to this restaurant", db) ∧
    getCustomer c.id A db = some c ∧
    (∃ r : Customer, (updateCustomer now input A db).1 = Except.ok r) := by
  have hBnil : db.customers.filter (fun x => x.id = c.id ∧ x.restaurant_id = B) = [] := by
    rw [List.filter_eq_nil_iff]
    intro x hx hp
    obtain ⟨h1, h2⟩ : x.id = c.id ∧ x.restaurant_id = B := by simpa using hp
    have hxc := huniq x hx h1
    rw [hxc, hA] at h2
    exact hB h2.symm
  have hcpred : c ∈ db.customers.filter (fun x => x.id = c.id ∧ x.restaurant_id = A) :=
    List.mem_filter.2 ⟨hmem, by simp [hA]⟩
  rcases hfa : db.customers.filter (fun x => x.id = c.id ∧ x.restaurant_id = A) with _ | ⟨x, t⟩
  · rw [hfa] at hcpred
    exact absurd hcpred (by simp)
  · have hxmem := hfa ▸ List.mem_cons_self x t
    obtain ⟨hxin, hxp⟩ := List.mem_filter.1 hxmem
    have hxid : x.id = c.id := by
      have := (by simpa using hxp : x.id = c.id ∧ x.restaurant_id = A)
      exact this.1
    have hxc : x = c := huniq x hxin hxid
    refine ⟨?_, ?_, ?_, ?_⟩
    · simp only [getCustomer, hBnil]
    · simp only [updateCustomer, hid, hBnil]
    · simp only [getCustomer, hfa, hxc]
    · refine ⟨applyCustomerUpdate input now x, ?_⟩
      simp only [updateCustomer, hid, hfa, List.map_cons]

/-- Witness for C1: a two-restaurant store; customer 1 belongs to
restaurant 1; restaurant 2 sees nothing and cannot update it. -/
theorem C1_customer_tenant_isolation_witness :
    getCustomer 1 2
      { DB.empty with
        customers := [{ id := 1, restaurant_id := 1, first_name := "J", last_name := "D"
                        email := none, phone := none, loyalty_points := 0, total_visits := 0
                        last_visit_date := none, notes := none, is_active := true
                        created_at := 0, updated_at := 0 }]
        nextCustomerId := 2 } = none ∧
    getCustomer 1 1
      { DB.empty with
        customers := [{ id := 1, restaurant_id := 1, first_name := "J", last_name := "D"
                        email := none, phone := none, loyalty_points := 0, total_visits := 0
                        last_visit_date := none, notes := none, is_active := true
                        created_at := 0, updated_at := 0 }]
        nextCustomerId := 2 }
      = some { id := 1, restaurant_id := 1, first_name := "J", last_name := "D"
               email := none, phone := none, loyalty_points := 0, total_visits := 0
               last_visit_date := none, notes := none, is_active := true
               created_at := 0, updated_at := 0 } := by
  have h := C1_customer_tenant_isolation
    { DB.empty with
      customers := [{ id := 1, restaurant_id := 1, first_name := "J", last_name := "D"
                      email := none, phone := none, loyalty_points := 0, total_visits := 0
                      last_visit_date := none, notes := none, is_active := true
                      created_at := 0, updated_at := 0 }]
      nextCustomerId := 2 }
    { id := 1, restaurant_id := 1, first_name := "J", last_name := "D"
      email := none, phone := none, loyalty_points := 0, total_visits := 0
      last_visit_date := none, notes := none, is_active := true
      created_at := 0, updated_at := 0 }
    1 2
    { id := 1, first_name := some "X", last_name := none, email := none, phone := none
      loyalty_points := none, notes := none, is_active := none }
    0
    (by decide) (by decide) (by decide) (by decide) (by decide)
  exact ⟨h.1, h.2.2.1⟩

/-- C9: partial-update semantics of `updateCustomer` and
`updateRestaurant`. A field absent from the input (outer `none`) keeps the
prior stored value; a present field overwrites, including present-but-null
(inner `none`) which stores null; `updated_at` is set to the call time on
every update, even when no business field is provided; all other columns
are untouched. Stated for the first row matched by the update's WHERE
clause. -/
theorem C9_partial_update_semantics :
    (∀ (now : Nat) (input : UpdateCustomerInput) (rid : Nat) (db : DB)
        (c : Customer) (rest : List Customer),
      db.customers.filter (fun x => x.id = input.id ∧ x.restaurant_id = rid) = c :: rest →
      ∃ r : Customer, (updateCustomer now input rid db).1 = Except.ok r ∧
        (input.first_name = none → r.first_name = c.first_name) ∧
        (∀ v, input.first_name = some v → r.first_name = v) ∧
        (input.last_name = none → r.last_name = c.last_name) ∧
        (∀ v, input.last_name = some v → r.last_name = v) ∧
        (input.email = none → r.email = c.email) ∧
        (∀ v, input.email = some v → r.email = v) ∧
        (input.phone = none → r.phone = c.phone) ∧
        (∀ v, input.phone = some v → r.phone = v) ∧
        (input.loyalty_points = none → r.loyalty_points = c.loyalty_points) ∧
        (∀ v, input.loyalty_points = some v → r.loyalty_points = v) ∧
        (input.notes = none → r.notes = c.notes) ∧
        (∀ v, input.notes = some v → r.notes = v) ∧
        (input.is_active = none → r.is_active = c.is_active) ∧
        (∀ v, input.is_active = some v → r.is_active = v) ∧
        r.updated_at = now ∧ r.created_at = c.created_at ∧ r.id = c.id ∧
        r.restaurant_id = c.restaurant_id ∧ r.total_visits = c.total_visits ∧
        r.last_visit_date = c.last_visit_date) ∧
    (∀ (now : Nat) (input : UpdateRestaurantInput) (db : DB)
        (m : Restaurant) (rest : List Restaurant),
      db.restaurants.filter (fun x => x.id = input.id) = m :: rest →
      ∃ r : Restaurant, (updateRestaurant now input db).1 = Except.ok r ∧
        (input.name = none → r.name = m.name) ∧
        (∀ v, input.name = some v → r.name = v) ∧
        (input.description = none → r.description = m.description) ∧
        (∀ v, input.description = some v → r.description = v) ∧
        (input.email = none → r.email = m.email) ∧
        (∀ v, input.email = some v → r.email = v) ∧
        (input.phone = none → r.phone = m.phone) ∧
        (∀ v, input.phone = some v → r.phone = v) ∧
        (input.address = none → r.address = m.address) ∧
        (∀ v, input.address = some v → r.address = v) ∧
        (input.logo_url = none → r.logo_url = m.logo_url) ∧
        (∀ v, input.logo_url = some v → r.logo_url = v) ∧
        (input.brand_color = none → r.brand_color = m.brand_color) ∧
        (∀ v, input.brand_color = some v → r.brand_color = v) ∧
        (input.is_active = none → r.is_active = m.is_active) ∧
        (∀ v, input.is_active = some v → r.is_active = v) ∧
        r.updated_at = now ∧ r.created_at = m.created_at ∧ r.id = m.id) := by
  constructor
  · intro now input rid db c rest h
    refine ⟨applyCustomerUpdate input now c, ?_, ?_, ?_, ?_, ?_, ?_, ?_, ?_, ?_, ?_, ?_,
      ?_, ?_, ?_, ?_, rfl, rfl, rfl, rfl, rfl, rfl⟩
    · simp only [updateCustomer, h, List.map_cons]
    all_goals first
      | (intro hv; simp [applyCustomerUpdate, hv])
      | (intro v hv; simp [applyCustomerUpdate, hv])
  · intro now input db m rest h
    refine ⟨applyRestaurantUpdate input now m, ?_, ?_, ?_, ?_, ?_, ?_, ?_, ?_, ?_, ?_, ?_,
      ?_, ?_, ?_, ?_, ?_, ?_, rfl, rfl, rfl⟩
    · simp only [updateRestaurant, h]
    all_goals first
      | (intro hv; simp [applyRestaurantUpdate, hv])
      | (intro v hv; simp [applyRestaurantUpdate, hv])

/-- Witness for C9: updating only `loyalty_points` (customer) and only
`description` to null (restaurant) at a concrete store; `updated_at`
advances, untouched fields survive. -/
theorem C9_partial_update_semantics_witness :
    (∃ r : Customer,
      (updateCustomer 77
        { id := 1, first_name := none, last_name := none, email := none, phone := none
          loyalty_points := some 150, notes := none, is_active := none }
        1
        { DB.empty with
          customers := [{ id := 1, restaurant_id := 1, first_name := "J", last_name := "D"
                          email := some "j@d.e", phone := none, loyalty_points := 0
                          total_visits := 3, last_visit_date := none, notes := none
                          is_active := true, created_at := 5, updated_at := 5 }]
          nextCustomerId := 2 }).1 = Except.ok r ∧
      r.first_name = "J" ∧ r.loyalty_points = 150 ∧ r.updated_at = 77) ∧
    (∃ r : Restaurant,
      (updateRestaurant 88
        { id := 1, name := none, description := some none, email := none, phone := none
          address := none, logo_url := none, brand_color := none, is_active := none }
        { DB.empty with
          restaurants := [{ id := 1, name := "T", description := some "old", email := "t@t.com"
                            phone := none, address := none, logo_url := none
                            brand_color := none, is_active := true
                            created_at := 5, updated_at := 5 }]
          nextRestaurantId := 2 }).1 = Except.ok r ∧
      r.description = none ∧ r.name = "T" ∧ r.updated_at = 88) := by
  constructor
  · obtain ⟨r, hok, hfn, _, _, _, _, _, _, _, _, hlp, _, _, _, _, hupd, _, _, _, _, _⟩ :=
      C9_partial_update_semantics.1 77
        { id := 1, first_name := none, last_name := none, email := none, phone := none
          loyalty_points := some 150, notes := none, is_active := none }
        1
        { DB.empty with
          customers := [{ id := 1, restaurant_id := 1, first_name := "J", last_name := "D"
                          email := some "j@d.e", phone := none, loyalty_points := 0
                          total_visits := 3, last_visit_date := none, notes := none
                          is_active := true, created_at := 5, updated_at := 5 }]
          nextCustomerId := 2 }
        { id := 1, restaurant_id := 1, first_name := "J", last_name := "D"
          email := some "j@d.e", phone := none, loyalty_points := 0
          total_visits := 3, last_visit_date := none, notes := none
          is_active := true, created_at := 5, updated_at := 5 }
        [] (by decide)
    exact ⟨r, hok, hfn rfl, hlp 150 rfl, hupd⟩
  · obtain ⟨r, hok, hnm, _, _, hdesc, _, _, _, _, _, _, _, _, _, _, _, _, hupd, _, _⟩ :=
      C9_partial_update_semantics.2 88
        { id := 1, name := none, description := some none, email := none, phone := none
          address := none, logo_url := none, brand_color := none, is_active := none }
        { DB.empty with
          restaurants := [{ id := 1, name := "T", description := some "old", email := "t@t.com"
                            phone := none, address := none, logo_url := none
                            brand_color := none, is_active := true
                            created_at := 5, updated_at := 5 }]
          nextRestaurantId := 2 }
        { id := 1, name := "T", description := some "old", email := "t@t.com"
          phone := none, address := none, logo_url := none
          brand_color := none, is_active := true, created_at := 5, updated_at := 5 }
        [] (by decide)
    exact ⟨r, hok, hdesc none rfl, hnm rfl, hupd⟩

/-- A user of restaurant 1 (a would-be caller tenant context). -/
def tenantOneUser : User :=
  { id := 1, email := "owner1@a.b", password_hash := "h1", first_name := "O", last_name := "One"
    role := UserRole.RESTAURANT_OWNER, restaurant_id := some 1, is_active := true
    created_at := 0, updated_at := 0 }

/-- A user of restaurant 2, a different tenant. -/
def tenantTwoUser : User :=
  { id := 2, email := "staff2@a.b", password_hash := "h2", first_name := "S", last_name := "Two"
    role := UserRole.STAFF, restaurant_id := some 2, is_active := true
    created_at := 0, updated_at := 0 }

/-- A store holding one user in each of two restaurants. -/
def twoTenantDB : DB :=
  { DB.empty with users := [tenantOneUser, tenantTwoUser], nextUserId := 3 }

/-- C2 fails on the code: `updateUser` takes no caller tenant context and
its WHERE clause filters only on `id`, so an update request against the
user of restaurant 2 succeeds and mutates that row — there is no
`restaurant_id` equality filter restricting the mutation to any caller's
tenant. -/
theorem C2_updateUser_has_no_tenant_filter :
    (updateUser 9
      { id := 2, email := none, first_name := some "X", last_name := none, role := none
        restaurant_id := none, is_active := none } twoTenantDB).1
      = Except.ok { tenantTwoUser with first_name := "X", updated_at := 9 } ∧
    (updateUser 9
      { id := 2, email := none, first_name := some "X", last_name := none, role := none
        restaurant_id := none, is_active := none } twoTenantDB).2.users
      = [tenantOneUser, { tenantTwoUser with first_name := "X", updated_at := 9 }] := by
  exact ⟨rfl, rfl⟩

/-- The store after seeding the permission catalog and assigning the default
role permissions, starting from the empty store. -/
def seededStore : DB :=
  (assignDefaultRolePermissions 0 (seedDefaultPermissions 0 DB.empty).2).2

/-- C5: after seeding and role assignment, `getPermissionsByRole` resolves
exactly the fixed mapping table — all 11 permissions for SUPER_ADMIN and
RESTAURANT_OWNER, the 6 MANAGER permissions, the 2 STAFF permissions — and
for any store in which a role has no assigned edges the result is the empty
list, not an error. -/
theorem C5_permissions_by_role_match_table :
    (getPermissionsByRole UserRole.SUPER_ADMIN seededStore).map (fun p => p.name)
      = ["customers:read", "customers:write", "customers:delete",
         "staff:read", "staff:write", "staff:delete",
         "settings:read", "settings:write",
         "billing:read", "billing:write", "reports:read"] ∧
    (getPermissionsByRole UserRole.RESTAURANT_OWNER seededStore).map (fun p => p.name)
      = ["customers:read", "customers:write", "customers:delete",
         "staff:read", "staff:write", "staff:delete",
         "settings:read", "settings:write",
         "billing:read", "billing:write", "reports:read"] ∧
    (getPermissionsByRole UserRole.MANAGER seededStore).map (fun p => p.name)
      = ["customers:read", "customers:write", "customers:delete",
         "staff:read", "staff:write", "reports:read"] ∧
    (getPermissionsByRole UserRole.STAFF seededStore).map (fun p => p.name)
      = ["customers:read", "reports:read"] ∧
    (getPermissionsByRole UserRole.SUPER_ADMIN seededStore).length = 11 ∧
    (getPermissionsByRole UserRole.RESTAURANT_OWNER seededStore).length = 11 ∧
    (getPermissionsByRole UserRole.MANAGER seededStore).length = 6 ∧
    (getPermissionsByRole UserRole.STAFF seededStore).length = 2 ∧
    (∀ (db : DB) (role : UserRole),
      db.rolePermissions.filter (fun rp => rp.role = role) = [] →
      getPermissionsByRole role db = []) := by
  refine ⟨rfl, rfl, rfl, rfl, rfl, rfl, rfl, rfl, ?_⟩
  intro db role h
  simp [getPermissionsByRole, h]

/-- Witness for C5: a role with no assigned edges (any role over the empty
store) yields the empty list. -/
theorem C5_permissions_by_role_match_table_witness :
    getPermissionsByRole UserRole.MANAGER DB.empty = [] := by
  exact C5_permissions_by_role_match_table.2.2.2.2.2.2.2.2 DB.empty UserRole.MANAGER rfl

/-- The permission row the seeding loop inserts for entry `d` at id `n`. -/
def seedRow (now : Nat) (d : SeedPermission) (n : Nat) : Permission :=
  { id := n, name := d.name, description := some d.description
    resource := d.resource, action := d.action, created_at := now }

/-- Unfolding the seeding loop on a hit. -/
theorem seedPermissionsCore_cons_found (now : Nat) (d : SeedPermission)
    (ds : List SeedPermission) (ps : List Permission) (n : Nat) (p : Permission)
    (hf : ps.find? (fun p => p.name = d.name) = some p) :
    seedPermissionsCore now (d :: ds) ps n
      = ((p :: (seedPermissionsCore now ds ps n).1,
          (seedPermissionsCore now ds ps n).2.1,
          (seedPermissionsCore now ds ps n).2.2)) := by
  simp only [seedPermissionsCore, hf]

/-- Unfolding the seeding loop on a miss. -/
theorem seedPermissionsCore_cons_missing (now : Nat) (d : SeedPermission)
    (ds : List SeedPermission) (ps : List Permission) (n : Nat)
    (hf : ps.find? (fun p => p.name = d.name) = none) :
    seedPermissionsCore now (d :: ds) ps n
      = ((seedRow now d n :: (seedPermissionsCore now ds (ps ++ [seedRow now d n]) (n + 1)).1,
          (seedPermissionsCore now ds (ps ++ [seedRow now d n]) (n + 1)).2.1,
          (seedPermissionsCore now ds (ps ++ [seedRow now d n]) (n + 1)).2.2)) := by
  simp only [seedPermissionsCore, hf, seedRow]

/-- Seeding only appends to the permissions table. -/
theorem seedPermissionsCore_mono (now : Nat) (ds : List SeedPermission) :
    ∀ (ps : List Permission) (n : Nat),
      ∃ ex, (seedPermissionsCore now ds ps n).2.1 = ps ++ ex := by
  induction ds with
  | nil => intro ps n; exact ⟨[], by simp [seedPermissionsCore]⟩
  | cons d ds ih =>
    intro ps n
    cases hf : ps.find? (fun p => p.name = d.name) with
    | some p =>
      obtain ⟨ex, hex⟩ := ih ps n
      rw [seedPermissionsCore_cons_found now d ds ps n p hf]
      exact ⟨ex, hex⟩
    | none =>
      obtain ⟨ex, hex⟩ := ih (ps ++ [seedRow now d n]) (n + 1)
      rw [seedPermissionsCore_cons_missing now d ds ps n hf]
      exact ⟨seedRow now d n :: ex, by simpa [List.append_assoc] using hex⟩

/-- Running the seeding loop a second time finds every row the first run
ensured, returns the same rows, and changes nothing. -/
theorem seedPermissionsCore_idem (now1 now2 : Nat) (ds : List SeedPermission) :
    ∀ (ps : List Permission) (n : Nat),
      seedPermissionsCore now2 ds (seedPermissionsCore now1 ds ps n).2.1
          (seedPermissionsCore now1 ds ps n).2.2
        = seedPermissionsCore now1 ds ps n := by
  induction ds with
  | nil => intro ps n; simp [seedPermissionsCore]
  | cons d ds ih =>
    intro ps n
    cases hf : ps.find? (fun p => p.name = d.name) with
    | some p =>
      rw [seedPermissionsCore_cons_found now1 d ds ps n p hf]
      obtain ⟨ex, hex⟩ := seedPermissionsCore_mono now1 ds ps n
      have hfind2 : (seedPermissionsCore now1 ds ps n).2.1.find? (fun p => p.name = d.name)
          = some p := by
        rw [hex, List.find?_append, hf]; rfl
      rw [seedPermissionsCore_cons_found now2 d ds (seedPermissionsCore now1 ds ps n).2.1
        (seedPermissionsCore now1 ds ps n).2.2 p hfind2]
      rw [ih ps n]
    | none =>
      rw [seedPermissionsCore_cons_missing now1 d ds ps n hf]
      obtain ⟨ex, hex⟩ := seedPermissionsCore_mono now1 ds (ps ++ [seedRow now1 d n]) (n + 1)
      have hfind2 : (seedPermissionsCore now1 ds (ps ++ [seedRow now1 d n]) (n + 1)).2.1.find?
          (fun p => p.name = d.name) = some (seedRow now1 d n) := by
        rw [hex, List.append_assoc, List.find?_append, hf]
        simp [List.find?_append, seedRow]
      rw [seedPermissionsCore_cons_found now2 d ds
        (seedPermissionsCore now1 ds (ps ++ [seedRow now1 d n]) (n + 1)).2.1
        (seedPermissionsCore now1 ds (ps ++ [seedRow now1 d n]) (n + 1)).2.2
        (seedRow now1 d n) hfind2]
      rw [ih (ps ++ [seedRow now1 d n]) (n + 1)]

/-- The seeding loop returns one row per entry of the default list. -/
theorem seedPermissionsCore_length (now : Nat) (ds : List SeedPermission) :
    ∀ (ps : List Permission) (n : Nat),
      (seedPermissionsCore now ds ps n).1.length = ds.length := by
  induction ds with
  | nil => intro ps n; simp [seedPermissionsCore]
  | cons d ds ih =>
    intro ps n
    cases hf : ps.find? (fun p => p.name = d.name) with
    | some p =>
      rw [seedPermissionsCore_cons_found now d ds ps n p hf]
      simp [ih ps n]
    | none =>
      rw [seedPermissionsCore_cons_missing now d ds ps n hf]
      simp [ih (ps ++ [seedRow now d n]) (n + 1)]

/-- The edge row the assignment loop inserts for `pair` at id `n`. -/
def assignRow (now : Nat) (pair : UserRole × String) (pid n : Nat) : RolePermission :=
  { id := n, role := pair.1, permission_id := pid, created_at := now }

/-- Unfolding the assignment loop when the permission name is skipped
(missing from the map, or falsy id 0). -/
theorem assignCore_cons_skip (now : Nat) (perms : List Permission)
    (pair : UserRole × String) (rest : List (UserRole × String))
    (es : List RolePermission) (n : Nat)
    (h : permissionMapGet perms pair.2 = none ∨ permissionMapGet perms pair.2 = some 0) :
    assignCore now perms (pair :: rest) es n = assignCore now perms rest es n := by
  rcases h with h | h
  · simp only [assignCore, h]
  · simp [assignCore, h]

/-- Unfolding the assignment loop when the edge already exists. -/
theorem assignCore_cons_found (now : Nat) (perms : List Permission)
    (pair : UserRole × String) (rest : List (UserRole × String))
    (es : List RolePermission) (n pid : Nat) (e : RolePermission)
    (hm : permissionMapGet perms pair.2 = some pid) (hz : pid ≠ 0)
    (hf : es.find? (fun e => e.role = pair.1 ∧ e.permission_id = pid) = some e) :
    assignCore now perms (pair :: rest) es n
      = ((e :: (assignCore now perms rest es n).1,
          (assignCore now perms rest es n).2.1,
          (assignCore now perms rest es n).2.2)) := by
  simp only [assignCore, hm, if_neg hz, hf]

/-- Unfolding the assignment loop when the edge is missing and inserted. -/
theorem assignCore_cons_missing (now : Nat) (perms : List Permission)
    (pair : UserRole × String) (rest : List (UserRole × String))
    (es : List RolePermission) (n pid : Nat)
    (hm : permissionMapGet perms pair.2 = some pid) (hz : pid ≠ 0)
    (hf : es.find? (fun e => e.role = pair.1 ∧ e.permission_id = pid) = none) :
    assignCore now perms (pair :: rest) es n
      = ((assignRow now pair pid n ::
            (assignCore now perms rest (es ++ [assignRow now pair pid n]) (n + 1)).1,
          (assignCore now perms rest (es ++ [assignRow now pair pid n]) (n + 1)).2.1,
          (assignCore now perms rest (es ++ [assignRow now pair pid n]) (n + 1)).2.2)) := by
  simp only [assignCore, hm, if_neg hz, hf, assignRow]

/-- Assignment only appends to the role_permissions table. -/
theorem assignCore_mono (now : Nat) (perms : List Permission)
    (pairs : List (UserRole × String)) :
    ∀ (es : List RolePermission) (n : Nat),
      ∃ ex, (assignCore now perms pairs es n).2.1 = es ++ ex := by
  induction pairs with
  | nil => intro es n; exact ⟨[], by simp [assignCore]⟩
  | cons pair rest ih =>
    intro es n
    cases hm : permissionMapGet perms pair.2 with
    | none =>
      rw [assignCore_cons_skip now perms pair rest es n (Or.inl hm)]
      exact ih es n
    | some pid =>
      by_cases hz : pid = 0
      · subst hz
        rw [assignCore_cons_skip now perms pair rest es n (Or.inr hm)]
        exact ih es n
      · cases hf : es.find? (fun e => e.role = pair.1 ∧ e.permission_id = pid) with
        | some e =>
          rw [assignCore_cons_found now perms pair rest es n pid e hm hz hf]
          exact ih es n
        | none =>
          obtain ⟨ex, hex⟩ := ih (es ++ [assignRow now pair pid n]) (n + 1)
          rw [assignCore_cons_missing now perms pair rest es n pid hm hz hf]
          exact ⟨assignRow now pair pid n :: ex, by simpa [List.append_assoc] using hex⟩

/-- Running the assignment loop a second time over the same permission
table finds every edge the first run ensured, returns the same edges, and
changes nothing. -/
theorem assignCore_idem (now1 now2 : Nat) (perms : List Permission)
    (pairs : List (UserRole × String)) :
    ∀ (es : List RolePermission) (n : Nat),
      assignCore now2 perms pairs (assignCore now1 perms pairs es n).2.1
          (assignCore now1 perms pairs es n).2.2
        = assignCore now1 perms pairs es n := by
  induction pairs with
  | nil => intro es n; simp [assignCore]
  | cons pair rest ih =>
    intro es n
    cases hm : permissionMapGet perms pair.2 with
    | none =>
      rw [assignCore_cons_skip now1 perms pair rest es n (Or.inl hm)]
      rw [assignCore_cons_skip now2 perms pair rest
        (assignCore now1 perms rest es n).2.1 (assignCore now1 perms rest es n).2.2 (Or.inl hm)]
      exact ih es n
    | some pid =>
      by_cases hz : pid = 0
      · subst hz
        rw [assignCore_cons_skip now1 perms pair rest es n (Or.inr hm)]
        rw [assignCore_cons_skip now2 perms pair rest
          (assignCore now1 perms rest es n).2.1 (assignCore now1 perms rest es n).2.2
          (Or.inr hm)]
        exact ih es n
      · cases hf : es.find? (fun e => e.role = pair.1 ∧ e.permission_id = pid) with
        | some e =>
          rw [assignCore_cons_found now1 perms pair rest es n pid e hm hz hf]
          obtain ⟨ex, hex⟩ := assignCore_mono now1 perms rest es n
          have hfind2 : (assignCore now1 perms rest es n).2.1.find?
              (fun e => e.role = pair.1 ∧ e.permission_id = pid) = some e := by
            rw [hex, List.find?_append, hf]; rfl
          rw [assignCore_cons_found now2 perms pair rest
            (assignCore now1 perms rest es n).2.1 (assignCore now1 perms rest es n).2.2
            pid e hm hz hfind2]
          rw [ih es n]
        | none =>
          rw [assignCore_cons_missing now1 perms pair rest es n pid hm hz hf]
          obtain ⟨ex, hex⟩ := assignCore_mono now1 perms rest
            (es ++ [assignRow now1 pair pid n]) (n + 1)
          have hfind2 : (assignCore now1 perms rest
              (es ++ [assignRow now1 pair pid n]) (n + 1)).2.1.find?
              (fun e => e.role = pair.1 ∧ e.permission_id = pid)
              = some (assignRow now1 pair pid n) := by
            rw [hex, List.append_assoc, List.find?_append, hf]
            simp [List.find?_append, assignRow]
          rw [assignCore_cons_found now2 perms pair rest
            (assignCore now1 perms rest (es ++ [assignRow now1 pair pid n]) (n + 1)).2.1
            (assignCore now1 perms rest (es ++ [assignRow now1 pair pid n]) (n + 1)).2.2
            pid (assignRow now1 pair pid n) hm hz hfind2]
          rw [ih (es ++ [assignRow now1 pair pid n]) (n + 1)]

/-- The assignment loop never creates a duplicate (role, permission_id)
edge: pairwise key-distinctness of the edge table is preserved. -/
theorem assignCore_pairwise (now : Nat) (perms : List Permission)
    (pairs : List (UserRole × String)) :
    ∀ (es : List RolePermission) (n : Nat),
      es.Pairwise (fun a b => ¬ (a.role = b.role ∧ a.permission_id = b.permission_id)) →
      (assignCore now perms pairs es n).2.1.Pairwise
        (fun a b => ¬ (a.role = b.role ∧ a.permission_id = b.permission_id)) := by
  induction pairs with
  | nil => intro es n h; simpa [assignCore] using h
  | cons pair rest ih =>
    intro es n h
    cases hm : permissionMapGet perms pair.2 with
    | none =>
      rw [assignCore_cons_skip now perms pair rest es n (Or.inl hm)]
      exact ih es n h
    | some pid =>
      by_cases hz : pid = 0
      · subst hz
        rw [assignCore_cons_skip now perms pair rest es n (Or.inr hm)]
        exact ih es n h
      · cases hf : es.find? (fun e => e.role = pair.1 ∧ e.permission_id = pid) with
        | some e =>
          rw [assignCore_cons_found now perms pair rest es n pid e hm hz hf]
          exact ih es n h
        | none =>
          rw [assignCore_cons_missing now perms pair rest es n pid hm hz hf]
          refine ih (es ++ [assignRow now pair pid n]) (n + 1) ?_
          rw [List.pairwise_append]
          refine ⟨h, List.pairwise_singleton _ _, ?_⟩
          intro a ha b hb
          have hb2 : b = assignRow now pair pid n := by simpa using hb
          subst hb2
          have hnotfound := List.find?_eq_none.1 hf a ha
          intro hcontra


          exact hnotfound (by simpa [assignRow] using hcontra)

/-- C6: seeding is idempotent. Re-running `seedDefaultPermissions` from any
store state returns exactly the rows (same ids) of the first run — always
11 of them — and leaves the store untouched; re-running
`assignDefaultRolePermissions` returns the first run's edges and leaves the
store untouched (so the edge count is unchanged); and assignment never
creates a duplicate (role, permission_id) edge. -/
theorem C6_seeding_idempotent (db : DB) (now1 now2 : Nat) :
    seedDefaultPermissions now2 (seedDefaultPermissions now1 db).2
      = seedDefaultPermissions now1 db ∧
    (seedDefaultPermissions now1 db).1.length = 11 ∧
    assignDefaultRolePermissions now2 (assignDefaultRolePermissions now1 db).2
      = assignDefaultRolePermissions now1 db ∧
    (db.rolePermissions.Pairwise
        (fun a b => ¬ (a.role = b.role ∧ a.permission_id = b.permission_id)) →
      (assignDefaultRolePermissions now1 db).2.rolePermissions.Pairwise
        (fun a b => ¬ (a.role = b.role ∧ a.permission_id = b.permission_id))) := by
  have hidem := seedPermissionsCore_idem now1 now2 DEFAULT_PERMISSIONS
    db.permissions db.nextPermissionId
  have haidem := assignCore_idem now1 now2
    (seedPermissionsCore now1 DEFAULT_PERMISSIONS db.permissions db.nextPermissionId).2.1
    rolePermissionPairs db.rolePermissions db.nextRolePermissionId
  refine ⟨?_, ?_, ?_, ?_⟩
  · simp [seedDefaultPermissions, hidem]
  · simp [seedDefaultPermissions,
      seedPermissionsCore_length now1 DEFAULT_PERMISSIONS db.permissions db.nextPermissionId]
    decide
  · simp [assignDefaultRolePermissions, seedDefaultPermissions, hidem, haidem]
  · intro h
    simp only [assignDefaultRolePermissions, seedDefaultPermissions]
    exact assignCore_pairwise now1 _ rolePermissionPairs db.rolePermissions
      db.nextRolePermissionId h

/-- Witness for C6: from the empty store, the duplicate-free edge table is
preserved by assignment (the hypothesis of the last conjunct holds
trivially for the empty table). -/
theorem C6_seeding_idempotent_witness :
    (assignDefaultRolePermissions 0 DB.empty).2.rolePermissions.Pairwise
      (fun a b => ¬ (a.role = b.role ∧ a.permission_id = b.permission_id)) := by
  exact (C6_seeding_idempotent DB.empty 0 5).2.2.2 (by decide)

/-- `splitOnChar` never returns the empty list. -/
theorem splitOnChar_ne_nil (sep : Char) (l : List Char) : splitOnChar sep l ≠ [] := by
  cases l with
  | nil => simp [splitOnChar]
  | cons c cs =>
    cases hr : splitOnChar sep cs with
    | nil => by_cases hc : c = sep <;> simp [splitOnChar, hr, hc]
    | cons h t => by_cases hc : c = sep <;> simp [splitOnChar, hr, hc]

/-- Splitting a list that does not contain the separator yields that list
as the single component. -/
theorem splitOnChar_not_mem (sep : Char) (l : List Char) (h : sep ∉ l) :
    splitOnChar sep l = [l] := by
  induction l with
  | nil => rfl
  | cons c cs ih =>
    have hc : c ≠ sep := fun he => h (he ▸ List.mem_cons_self c cs)
    have hcs : sep ∉ cs := fun hm => h (List.mem_cons_of_mem c hm)
    have hc2 : ¬ (c = sep) := hc
    simp [splitOnChar, ih hcs, hc2]

/-- Splitting at the first separator occurrence peels off the prefix. -/
theorem splitOnChar_append (sep : Char) (b : List Char) :
    ∀ (a : List Char), sep ∉ a →
      splitOnChar sep (a ++ sep :: b) = a :: splitOnChar sep b := by
  intro a
  induction a with
  | nil =>
    intro _
    cases hr : splitOnChar sep b with
    | nil => exact absurd hr (splitOnChar_ne_nil sep b)
    | cons h t => simp [splitOnChar, hr]
  | cons c cs ih =>
    intro hmem
    have hc : ¬ (c = sep) := fun he => hmem (he ▸ List.mem_cons_self c cs)
    have hcs : sep ∉ cs := fun hm => hmem (List.mem_cons_of_mem c hm)
    have hr := ih hcs
    simp [splitOnChar, hr, hc]

/-- A hex character is never the colon separator. -/
theorem hexVal_ne_colon (c : Char) (h : (hexVal c).isSome) : c ≠ Char.ofNat 58 := by
  intro he
  subst he
  have : hexVal (Char.ofNat 58) = none := by decide
  rw [this] at h
  simp at h

/-- On an all-hex character list, `hexDecode` produces one byte per pair of
characters. -/
theorem hexDecode_length : ∀ (l : List Char), (∀ c ∈ l, (hexVal c).isSome) →
    (hexDecode l).length = l.length / 2 := by
  intro l
  induction l using hexDecode.induct with
  | case1 c1 c2 rest hv lv hc2 hc1 ih =>
    intro hall
    simp only [hexDecode, hc1, hc2]
    have hr : (hexDecode rest).length = rest.length / 2 :=
      ih (fun c hc => hall c (List.mem_cons_of_mem c1 (List.mem_cons_of_mem c2 hc)))
    simp [hr]
    omega
  | case2 c1 c2 rest hfalse =>
    intro hall
    have h1 := hall c1 (List.mem_cons_self c1 (c2 :: rest))
    have h2 := hall c2 (List.mem_cons_of_mem c1 (List.mem_cons_self c2 rest))
    obtain ⟨a, ha⟩ := Option.isSome_iff_exists.1 h1
    obtain ⟨b, hb⟩ := Option.isSome_iff_exists.1 h2
    exact (hfalse a b ha hb).elim
  | case3 t hne =>
    intro hall
    cases t with
    | nil => rfl
    | cons a t2 =>
      cases t2 with
      | nil =>
        have hd : hexDecode [a] = [] := by
          simp [hexDecode.eq_def]
        simp [hd]
      | cons b t3 => exact (hne a b t3 rfl).elim

/-- `verifyPassword` on a digest stored in `digest:salt` order (the order
`createUser` writes) is false whenever the two components decode to byte
buffers of different lengths: the misparsed salt component is the digest,
`timingSafeEqual` is fed buffers of different lengths, throws, and the
catch turns that into false. -/
theorem verifyPassword_reversed_format (sha256hex : String → String)
    (password digest salt : String)
    (hdhex : ∀ c ∈ digest.data, (hexVal c).isSome)
    (hdne : digest.data ≠ [])
    (hshex : ∀ c ∈ salt.data, (hexVal c).isSome)
    (hsne : salt.data ≠ [])
    (hlen : (hexDecode salt.data).length
      ≠ (hexDecode (sha256hex (password ++ digest)).data).length) :
    verifyPassword sha256hex password (digest ++ ":" ++ salt) = false := by
  have hdata : (digest ++ ":" ++ salt).data
      = digest.data ++ Char.ofNat 58 :: salt.data := by
    rw [String.data_append, String.data_append]
    have : (":" : String).data = [Char.ofNat 58] := by decide
    rw [this, List.append_assoc]
    rfl
  have hdcolon : Char.ofNat 58 ∉ digest.data := by
    intro hc
    exact hexVal_ne_colon _ (hdhex _ hc) rfl
  have hscolon : Char.ofNat 58 ∉ salt.data := by
    intro hc
    exact hexVal_ne_colon _ (hshex _ hc) rfl
  have hsplit : splitOnChar (Char.ofNat 58) (digest ++ ":" ++ salt).data
      = [digest.data, salt.data] := by
    rw [hdata, splitOnChar_append (Char.ofNat 58) salt.data digest.data hdcolon,
      splitOnChar_not_mem (Char.ofNat 58) salt.data hscolon]
  have hde : digest.data.isEmpty = false := by
    simpa [List.isEmpty_iff] using hdne
  have hse : salt.data.isEmpty = false := by
    simpa [List.isEmpty_iff] using hsne
  have hmk : String.mk digest.data = digest := rfl
  simp only [verifyPassword, hsplit, hde, hse, Bool.false_eq_true, if_false, hmk,
    hashPassword]
  rw [if_neg hlen]

/-- C3 fails on the code: a user created by `createUser` can never
authenticate with the password it was created with. `createUser` stores the
digest as `hash:salt` while `verifyPassword` parses `salt:hash`, so the
salt component it extracts is the 64-character digest and the hash
component is the 32-character salt, whose 16 decoded bytes are compared
against a 32-byte recomputed digest — `timingSafeEqual` rejects the length
mismatch and authentication returns null. Stated for any SHA-256-shaped
primitive (64 hex output characters) and any 32-hex-character salt, with no
pre-existing user on the email. -/
theorem C3_created_user_cannot_authenticate
    (sha256hex : String → String) (now : Nat) (salt : String)
    (input : CreateUserInput) (db : DB)
    (hlen : ∀ s, (sha256hex s).length = 64)
    (hhex : ∀ s, ∀ c ∈ (sha256hex s).data, (hexVal c).isSome)
    (hsaltlen : salt.length = 32)
    (hsalthex : ∀ c ∈ salt.data, (hexVal c).isSome)
    (hemail : ∀ u ∈ db.users, u.email ≠ input.email) :
    (createUser sha256hex now salt input db).1.email = input.email ∧
    (createUser sha256hex now salt input db).1.is_active = true ∧
    authenticateUser sha256hex { email := input.email, password := input.password }
      (createUser sha256hex now salt input db).2 = none := by
  refine ⟨rfl, rfl, ?_⟩
  have hnone : db.users.find? (fun u => u.email = input.email) = none :=
    List.find?_eq_none.2 (fun u hu => by simpa using hemail u hu)
  have hfind : ((createUser sha256hex now salt input db).2).users.find?
      (fun u => u.email = input.email)
      = some (createUser sha256hex now salt input db).1 := by
    show (db.users ++ [(createUser sha256hex now salt input db).1]).find? _ = _
    rw [List.find?_append, hnone]
    simp [createUser]
  have hdiglen : (sha256hex (input.password ++ salt)).data.length = 64 := hlen _
  have hdigne : (sha256hex (input.password ++ salt)).data ≠ [] := by
    intro hc
    rw [hc] at hdiglen
    simp at hdiglen
  have hsone : salt.data.length = 32 := hsaltlen
  have hsne : salt.data ≠ [] := by
    intro hc
    rw [hc] at hsone
    simp at hsone
  have hl2 : (sha256hex (input.password ++ sha256hex (input.password ++ salt))).data.length
      = 64 := hlen _
  have hbuflen : (hexDecode salt.data).length
      ≠ (hexDecode (sha256hex (input.password ++ sha256hex (input.password ++ salt))).data).length := by
    rw [hexDecode_length salt.data hsalthex,
      hexDecode_length (sha256hex (input.password ++ sha256hex (input.password ++ salt))).data
        (hhex _), hsone, hl2]
    decide
  have hverify : verifyPassword sha256hex input.password
      (sha256hex (input.password ++ salt) ++ ":" ++ salt) = false :=
    verifyPassword_reversed_format sha256hex input.password
      (sha256hex (input.password ++ salt)) salt (hhex _) hdigne hsalthex hsne hbuflen
  have hph : (createUser sha256hex now salt input db).1.password_hash
      = sha256hex (input.password ++ salt) ++ ":" ++ salt := rfl
  have hact : (createUser sha256hex now salt input db).1.is_active = true := rfl
  simp only [authenticateUser, hfind]
  rw [hph]
  simp [hact, hverify]

/-- Witness for C3: with a stand-in 64-hex-character digest primitive and a
32-character salt, the freshly created user fails to authenticate. -/
theorem C3_created_user_cannot_authenticate_witness :
    authenticateUser (fun _ => String.mk (List.replicate 64 (Char.ofNat 97)))
      { email := "a@b.c", password := "password123" }
      (createUser (fun _ => String.mk (List.replicate 64 (Char.ofNat 97))) 5
        (String.mk (List.replicate 32 (Char.ofNat 48)))
        { email := "a@b.c", password := "password123", first_name := "J", last_name := "D"
          role := some UserRole.STAFF, restaurant_id := some 1 }
        DB.empty).2 = none := by
  exact (C3_created_user_cannot_authenticate
    (fun _ => String.mk (List.replicate 64 (Char.ofNat 97))) 5
    (String.mk (List.replicate 32 (Char.ofNat 48)))
    { email := "a@b.c", password := "password123", first_name := "J", last_name := "D"
      role := some UserRole.STAFF, restaurant_id := some 1 }
    DB.empty
    (fun _ => rfl)
    (fun _ c hc => by
      have := List.eq_of_mem_replicate hc
      subst this
      decide)
    (by decide)
    (fun c hc => by
      have := List.eq_of_mem_replicate hc
      subst this
      decide)
    (fun u hu => by simp [DB.empty] at hu)).2.2

end Resto
